import Mathlib

/-!
# CityScale emissions/forecast engine: a shallow embedding

This file embeds the computational core of the CityScale city-emissions
estimator (modules `utils`, `emissions_engine`, `urban_form`, `scenario`)
and proves the specified properties of it.

Modelling conventions:

* Dataframes are lists of typed records (`ActivityRow`, `FactorRow`, …).
  The required-column checks of `emissions_engine._check_required` are
  vacuous in the typed embedding: a typed row always has its columns.
* Python floats are modelled as exact rationals `ℚ`; the urban-form
  module, which uses the transcendental `log1p`, is modelled over `ℝ`.
* Raised exceptions are modelled with `Except`: `FError.valueError` for a
  `ValueError` whose message is the given string, `FError.missingFactors`
  for the `ValueError` listing sectors without emission factors, and
  `FError.keyError` for a `KeyError` on a missing dataframe column.
* `pandas` left-merge produces one output row per (left row, matching
  right row) pair, and a left row with no match yields a single row with
  missing (NaN) factor columns; `mergedRows` mirrors this.
* `DataFrame.sort_values(col, ascending=False)` computes an ascending
  argsort of the column and reverses the resulting indexer.  For frames
  of at most 15 rows the underlying numpy introsort is a pure (stable)
  insertion sort, so the net effect is a stable ascending sort followed
  by a reversal; `sort_desc_co2e` mirrors this.
* `pandas.Series.str.lower` on the ASCII scenario names is modelled by
  `lowercase`, a character-wise ASCII lowering.
* Missing floats (NaN) arising from a left-join miss are modelled with
  `Option`; a rational division by zero yields `0` where float division
  would yield an infinity, which is irrelevant to the properties proved
  here.
-/

/-- Errors raised by the embedded engine. -/
inductive FError where
  | valueError (msg : String)
  | missingFactors (sectors : List String)
  | keyError (key : String)
deriving DecidableEq

/-- Python's binary `max`: the first argument on ties. -/
def pyMax {α : Type} [LinearOrder α] (a b : α) : α := if b ≤ a then a else b

/-- Python's binary `min`: the first argument on ties. -/
def pyMin {α : Type} [LinearOrder α] (a b : α) : α := if a ≤ b then a else b

/-- `utils.clamp(value, minimum, maximum) = max(minimum, min(maximum, value))`.
The Python defaults are `minimum=0.0, maximum=1.0`; callers of the embedding
pass all three arguments explicitly. -/
def clamp {α : Type} [LinearOrder α] (value minimum maximum : α) : α :=
  pyMax minimum (pyMin maximum value)

instance {ε α : Type} [DecidableEq ε] [DecidableEq α] : DecidableEq (Except ε α) := by
  intro x y
  cases x with
  | error e =>
    cases y with
    | error f => exact decidable_of_iff (e = f) (by simp)
    | ok b => exact isFalse (by simp)
  | ok a =>
    cases y with
    | error f => exact isFalse (by simp)
    | ok b => exact decidable_of_iff (a = b) (by simp)

/-- `utils.safe_divide`: division that degrades to `0.0` on a zero
denominator. -/
def safe_divide (numerator denominator : ℚ) : ℚ :=
  if denominator = 0 then 0 else numerator / denominator

/-- The inclusive list of years `utils.year_range` returns when it does not
raise. -/
def yearsList (start_year end_year : Int) : List Int :=
  (List.range (end_year + 1 - start_year).toNat).map (fun i => start_year + i)

/-- `utils.year_range`: inclusive year range, `ValueError` when
`end_year < start_year`. -/
def year_range (start_year end_year : Int) : Except FError (List Int) :=
  if end_year < start_year then .error (.valueError "end_year must be >= start_year")
  else .ok (yearsList start_year end_year)

/-- Per-gas global-warming-potential weights. -/
structure GWP where
  CO2 : ℚ
  CH4 : ℚ
  N2O : ℚ
deriving DecidableEq

/-- `utils.DEFAULT_GWP = {"CO2": 1.0, "CH4": 28.0, "N2O": 265.0}`. -/
def DEFAULT_GWP : GWP := ⟨1, 28, 265⟩

/-- The optional `gwp` argument of `compute_sector_emissions`: a per-key
override of `DEFAULT_GWP` (`None` is the record with no key set). -/
structure GWPOverrides where
  CO2 : Option ℚ
  CH4 : Option ℚ
  N2O : Option ℚ
deriving DecidableEq

/-- `gwp=None`: no override supplied. -/
def noOverrides : GWPOverrides := ⟨none, none, none⟩

/-- `gwp_values = {**DEFAULT_GWP, **(gwp or {})}`: defaults overridden
per-key. -/
def effective_gwp (gwp : GWPOverrides) : GWP :=
  ⟨gwp.CO2.getD DEFAULT_GWP.CO2, gwp.CH4.getD DEFAULT_GWP.CH4, gwp.N2O.getD DEFAULT_GWP.N2O⟩

/-- A row of an activity dataframe: columns `sector, activity`. -/
structure ActivityRow where
  sector : String
  activity : ℚ
deriving DecidableEq

/-- A row of a factor dataframe: columns
`sector, co2_factor, ch4_factor, n2o_factor`. -/
structure FactorRow where
  sector : String
  co2_factor : ℚ
  ch4_factor : ℚ
  n2o_factor : ℚ
deriving DecidableEq

/-- A row of `activity_df.merge(factor_df, how="left", on="sector")`:
`factors = none` models the NaN factor columns of a join miss. -/
structure MergedRow where
  sector : String
  activity : ℚ
  factors : Option (ℚ × ℚ × ℚ)
deriving DecidableEq

/-- A row of the dataframe returned by `compute_sector_emissions`:
columns `sector, activity, co2, ch4, n2o, co2e`. -/
structure EmissionRow where
  sector : String
  activity : ℚ
  co2 : ℚ
  ch4 : ℚ
  n2o : ℚ
  co2e : ℚ
deriving DecidableEq

/-- The pandas left-merge of the activity and factor frames on `sector`:
one output row per matching factor row, or a single row with missing
factors when no factor row matches. -/
def mergedRows (activity_df : List ActivityRow) (factor_df : List FactorRow) :
    List MergedRow :=
  activity_df.flatMap (fun a =>
    if (factor_df.filter (fun f => f.sector = a.sector)).isEmpty then
      [⟨a.sector, a.activity, none⟩]
    else (factor_df.filter (fun f => f.sector = a.sector)).map
      (fun f => ⟨a.sector, a.activity, some (f.co2_factor, f.ch4_factor, f.n2o_factor)⟩))

/-- `merged[merged["co2_factor"].isna()]["sector"].tolist()`: the sectors of
the merged rows whose factor columns are missing, in merge order. -/
def missing_sectors (merged : List MergedRow) : List String :=
  (merged.filter (fun m => m.factors.isNone)).map (fun m => m.sector)

/-- The emission columns computed for one merged row:
`co2 = activity * co2_factor` (likewise `ch4`, `n2o`) and
`co2e = co2 + ch4 * gwp_values["CH4"] + n2o * gwp_values["N2O"]`.
The `none` branch is unreachable behind the missing-factor check. -/
def emissionRow (g : GWP) (m : MergedRow) : EmissionRow :=
  match m.factors with
  | some (cf, hf, nf) =>
    let co2 := m.activity * cf
    let ch4 := m.activity * hf
    let n2o := m.activity * nf
    ⟨m.sector, m.activity, co2, ch4, n2o, co2 + ch4 * g.CH4 + n2o * g.N2O⟩
  | none => ⟨m.sector, m.activity, 0, 0, 0, 0⟩

/-- `merged.sort_values("co2e", ascending=False)`: ascending argsort of the
`co2e` column (stable in the at-most-15-row insertion-sort regime of numpy's
introsort), then the indexer is reversed. -/
def sort_desc_co2e (rows : List EmissionRow) : List EmissionRow :=
  (List.insertionSort (fun x y => x.co2e ≤ y.co2e) rows).reverse

/-- `emissions_engine.compute_sector_emissions`. -/
def compute_sector_emissions (activity_df : List ActivityRow)
    (factor_df : List FactorRow) (gwp : GWPOverrides) :
    Except FError (List EmissionRow) :=
  if (missing_sectors (mergedRows activity_df factor_df)).isEmpty then
    .ok (sort_desc_co2e ((mergedRows activity_df factor_df).map
      (emissionRow (effective_gwp gwp))))
  else .error (.missingFactors (missing_sectors (mergedRows activity_df factor_df)))

/-- The summary returned by `aggregate_emissions`. -/
structure CitySummary where
  total_co2e : ℚ
  per_capita_co2e : ℚ
  per_gdp_co2e : ℚ
deriving DecidableEq

/-- `emissions_engine.aggregate_emissions`. -/
def aggregate_emissions (sector_emissions : List EmissionRow)
    (population gdp : ℚ) : CitySummary :=
  let total := (sector_emissions.map (fun r => r.co2e)).sum
  ⟨total, safe_divide total population, safe_divide total gdp⟩

/-- `scenario.Scenario`: a named bundle of mitigation intensities. -/
structure Scenario where
  name : String
  energy_efficiency : ℚ
  renewable_share : ℚ
  modal_shift : ℚ
  industry_efficiency : ℚ
  waste_reduction : ℚ
deriving DecidableEq

/-- `Scenario.normalized`: clamps the five intensities into `[0, 1]`. -/
def Scenario.normalized (s : Scenario) : Scenario :=
  ⟨s.name, clamp s.energy_efficiency 0 1, clamp s.renewable_share 0 1,
    clamp s.modal_shift 0 1, clamp s.industry_efficiency 0 1,
    clamp s.waste_reduction 0 1⟩

/-- One masked multiplication
`df.loc[df["sector"] == sector, "activity"] *= mult` guarded by
`if mask.any()`, as in the loops of `apply_scenario` and
`apply_urban_form_modifiers`. -/
def scaleSector (df : List ActivityRow) (sector : String) (mult : ℚ) :
    List ActivityRow :=
  if df.any (fun a => a.sector = sector) then
    df.map (fun a => if a.sector = sector then ⟨a.sector, a.activity * mult⟩ else a)
  else df

/-- The `adjustments` dict of `apply_scenario`, in insertion order. -/
def adjustmentsList (scn : Scenario) : List (String × ℚ) :=
  [("residential", 1 - scn.energy_efficiency),
   ("energy", 1 - scn.energy_efficiency),
   ("transport", 1 - scn.modal_shift),
   ("industry", 1 - scn.industry_efficiency),
   ("waste", 1 - scn.waste_reduction)]

/-- `scenario.apply_scenario`: normalized multiplicative discounts on
activity per sector, and the energy sector's three factor columns scaled
by `1 - renewable_share`.  The `astype(float)` cast is a no-op over `ℚ`. -/
def apply_scenario (activity_df : List ActivityRow) (factor_df : List FactorRow)
    (scenario : Scenario) : List ActivityRow × List FactorRow :=
  let scn := scenario.normalized
  let adjusted_activity :=
    (adjustmentsList scn).foldl (fun df sm => scaleSector df sm.1 sm.2) activity_df
  let adjusted_factors :=
    if factor_df.any (fun f => f.sector = "energy") then
      factor_df.map (fun f =>
        if f.sector = "energy" then
          ⟨f.sector, f.co2_factor * (1 - scn.renewable_share),
            f.ch4_factor * (1 - scn.renewable_share),
            f.n2o_factor * (1 - scn.renewable_share)⟩
        else f)
    else factor_df
  (adjusted_activity, adjusted_factors)

/-- `urban_form.apply_urban_form_modifiers`: one guarded masked
multiplication per `(sector, modifier)` entry of the modifier dict. -/
def apply_urban_form_modifiers (activity_df : List ActivityRow)
    (modifiers : List (String × ℚ)) : List ActivityRow :=
  modifiers.foldl (fun df sm => scaleSector df sm.1 sm.2) activity_df

/-- One masked multiplication
`df.loc[df["sector"].isin(sectors), "activity"] *= scale` (no `any()` guard
in the source at these two sites). -/
def scale_isin (df : List ActivityRow) (sectors : List String) (scale : ℚ) :
    List ActivityRow :=
  df.map (fun a => if a.sector ∈ sectors then ⟨a.sector, a.activity * scale⟩ else a)

/-- `pandas.Series.str.lower` on an ASCII name: character-wise lowering. -/
def lowercase (s : String) : String := ⟨s.data.map Char.toLower⟩

/-- One record appended by the (scenario, year) loop body of
`forecast_scenarios`. -/
structure ForecastRecord where
  year : Int
  scenario : String
  total_co2e : ℚ
  per_capita_co2e : ℚ
  per_gdp_co2e : ℚ
  population : ℚ
  gdp : ℚ
deriving DecidableEq

/-- A row of the final forecast dataframe: a record plus the
`baseline_total` column from the baseline left-join and the derived
`change_vs_baseline_pct` column.  `none` models NaN from a join miss. -/
structure ForecastRow where
  year : Int
  scenario : String
  total_co2e : ℚ
  per_capita_co2e : ℚ
  per_gdp_co2e : ℚ
  population : ℚ
  gdp : ℚ
  baseline_total : Option ℚ
  change_vs_baseline_pct : Option ℚ
deriving DecidableEq

/-- `if urban_modifiers:` — Python truthiness: `None` and the empty dict
both skip the urban-form application. -/
def um_step (scaled : List ActivityRow)
    (urban_modifiers : Option (List (String × ℚ))) : List ActivityRow :=
  match urban_modifiers with
  | none => scaled
  | some mods => if mods.isEmpty then scaled else apply_urban_form_modifiers scaled mods

/-- The table pipeline of one (scenario, year) loop body of
`forecast_scenarios`: scale residential/transport/waste activity by
`pop_scale = (1+population_growth)^t` and industry/energy activity by the
arithmetic mean of `pop_scale` and `gdp_scale = (1+gdp_growth)^t`, apply the
urban modifiers when truthy, then apply the scenario to the scaled activity
and the base factors. -/
def cell_tables (base_activity_df : List ActivityRow) (factor_df : List FactorRow)
    (population_growth gdp_growth : ℚ) (t : ℕ)
    (urban_modifiers : Option (List (String × ℚ))) (scenario : Scenario) :
    List ActivityRow × List FactorRow :=
  apply_scenario
    (um_step
      (scale_isin
        (scale_isin base_activity_df ["residential", "transport", "waste"]
          ((1 + population_growth) ^ t))
        ["industry", "energy"]
        (((1 + population_growth) ^ t + (1 + gdp_growth) ^ t) / 2))
      urban_modifiers)
    factor_df scenario

/-- The body of the `for year in year_range(...)` loop of
`forecast_scenarios`, producing one record for one (scenario, year) cell. -/
def forecast_cell (base_activity_df : List ActivityRow)
    (factor_df : List FactorRow)
    (population_base population_growth gdp_per_capita_base gdp_growth : ℚ)
    (start_year : Int) (urban_modifiers : Option (List (String × ℚ)))
    (scenario : Scenario) (year : Int) : Except FError ForecastRecord :=
  let t := (year - start_year).toNat
  let population := population_base * (1 + population_growth) ^ t
  let gdp_per_capita := gdp_per_capita_base * (1 + gdp_growth) ^ t
  let gdp := population * gdp_per_capita
  let adj := cell_tables base_activity_df factor_df population_growth gdp_growth t
    urban_modifiers scenario
  match compute_sector_emissions adj.1 adj.2 noOverrides with
  | .error e => .error e
  | .ok sector =>
    let summary := aggregate_emissions sector population gdp
    .ok ⟨year, scenario.name, summary.total_co2e, summary.per_capita_co2e,
      summary.per_gdp_co2e, population, gdp⟩

/-- Sequential effectful map: Python's loop order, aborting on the first
raised exception. -/
def mapME {α β : Type} (f : α → Except FError β) : List α → Except FError (List β)
  | [] => .ok []
  | x :: xs =>
    match f x with
    | .error e => .error e
    | .ok y =>
      match mapME f xs with
      | .error e => .error e
      | .ok ys => .ok (y :: ys)

/-- The records produced for one scenario: `year_range` is evaluated inside
the per-scenario loop, then each year's cell runs. -/
def cells_for_scenario (base_activity_df : List ActivityRow)
    (factor_df : List FactorRow)
    (population_base population_growth gdp_per_capita_base gdp_growth : ℚ)
    (start_year end_year : Int) (urban_modifiers : Option (List (String × ℚ)))
    (scenario : Scenario) : Except FError (List ForecastRecord) :=
  match year_range start_year end_year with
  | .error e => .error e
  | .ok years =>
    mapME (forecast_cell base_activity_df factor_df population_base
      population_growth gdp_per_capita_base gdp_growth start_year
      urban_modifiers scenario) years

/-- The full `records` list built by the nested scenario × year loops. -/
def forecast_records (base_activity_df : List ActivityRow)
    (factor_df : List FactorRow)
    (population_base population_growth gdp_per_capita_base gdp_growth : ℚ)
    (start_year end_year : Int) (scenarios : List Scenario)
    (urban_modifiers : Option (List (String × ℚ))) :
    Except FError (List ForecastRecord) :=
  match mapME (cells_for_scenario base_activity_df factor_df population_base
      population_growth gdp_per_capita_base gdp_growth start_year end_year
      urban_modifiers) scenarios with
  | .error e => .error e
  | .ok lists => .ok lists.flatten

/-- The `(year, total_co2e)` pairs of the records whose scenario name
lowers to `"baseline"`: the right-hand side of the baseline join. -/
def baselinePairs (records : List ForecastRecord) : List (Int × ℚ) :=
  (records.filter (fun r => lowercase r.scenario = "baseline")).map
    (fun r => (r.year, r.total_co2e))

/-- One joined row: the record's columns, the joined `baseline_total`, and
`change_vs_baseline_pct = (total_co2e - baseline_total)/baseline_total * 100`
(NaN when the join missed). -/
def joinedRow (r : ForecastRecord) (bt : Option ℚ) : ForecastRow :=
  ⟨r.year, r.scenario, r.total_co2e, r.per_capita_co2e, r.per_gdp_co2e,
    r.population, r.gdp, bt,
    bt.map (fun b => (r.total_co2e - b) / b * 100)⟩

/-- The rows the left-join on `year` produces for one record: one per
matching baseline pair, or a single NaN-carrying row on a miss. -/
def joinBranch (baseline : List (Int × ℚ)) (r : ForecastRecord) : List ForecastRow :=
  if (baseline.filter (fun b => b.1 = r.year)).isEmpty then [joinedRow r none]
  else (baseline.filter (fun b => b.1 = r.year)).map (fun b => joinedRow r (some b.2))

/-- The post-pass of `forecast_scenarios`: left-join every record to the
baseline rows on `year`, derive `change_vs_baseline_pct`, then overwrite it
with exactly `0.0` on the rows whose scenario name lowers to
`"baseline"`. -/
def baseline_join (records : List ForecastRecord) : List ForecastRow :=
  (records.flatMap (joinBranch (baselinePairs records))).map (fun row =>
    if lowercase row.scenario = "baseline" then
      { row with change_vs_baseline_pct := some 0 }
    else row)

/-- `scenario.forecast_scenarios`.  When `records` is empty,
`pd.DataFrame([])` has no columns at all, so the baseline join's very first
step `df["scenario"]` raises `KeyError("scenario")`. -/
def forecast_scenarios (base_activity_df : List ActivityRow)
    (factor_df : List FactorRow)
    (population_base population_growth gdp_per_capita_base gdp_growth : ℚ)
    (start_year end_year : Int) (scenarios : List Scenario)
    (urban_modifiers : Option (List (String × ℚ))) :
    Except FError (List ForecastRow) :=
  match forecast_records base_activity_df factor_df population_base
      population_growth gdp_per_capita_base gdp_growth start_year end_year
      scenarios urban_modifiers with
  | .error e => .error e
  | .ok records =>
    if records.isEmpty then .error (.keyError "scenario")
    else .ok (baseline_join records)

/-- `urban_form.UrbanFormParameters` (over `ℝ`: the module uses the
transcendental `log1p`). -/
structure UrbanFormParameters where
  density_per_km2 : ℝ
  compactness_index : ℝ
  transit_access_index : ℝ

/-- The modifier dict returned by `calculate_urban_modifiers`. -/
structure UrbanModifiers where
  transport : ℝ
  residential : ℝ
  energy : ℝ

/-- `urban_form.calculate_urban_modifiers`, with
`log1p x = Real.log (1 + x)`. -/
noncomputable def calculate_urban_modifiers (params : UrbanFormParameters) :
    UrbanModifiers :=
  let density_effect :=
    clamp (1 - 0.08 * Real.log (1 + pyMax params.density_per_km2 1 / 1000)) 0.65 1.05
  let compactness_effect := clamp (1 - 0.2 * params.compactness_index) 0.75 1.05
  let transit_effect := clamp (1 - 0.25 * params.transit_access_index) 0.7 1.05
  let transport_modifier :=
    clamp (density_effect * compactness_effect * transit_effect) 0.45 1.1
  let building_modifier := clamp (1 - 0.1 * params.compactness_index) 0.8 1.05
  ⟨transport_modifier, building_modifier, building_modifier⟩

/-- Spec-side description of one result row of `compute_sector_emissions`
for one activity row (claim C1): the first matching factor record supplies
the three factors, `co2/ch4/n2o = activity × respective factor`, and
`co2e = co2 + ch4·GWP_CH4 + n2o·GWP_N2O` with the effective GWP `g`. -/
def specEmissionRow (factor_df : List FactorRow) (g : GWP) (a : ActivityRow) :
    EmissionRow :=
  match factor_df.filter (fun f => f.sector = a.sector) with
  | f :: _ =>
    let co2 := a.activity * f.co2_factor
    let ch4 := a.activity * f.ch4_factor
    let n2o := a.activity * f.n2o_factor
    ⟨a.sector, a.activity, co2, ch4, n2o, co2 + ch4 * g.CH4 + n2o * g.N2O⟩
  | [] => ⟨a.sector, a.activity, 0, 0, 0, 0⟩

/-! ## General lemmas about the embedded operations -/

theorem pyMax_left_le {α : Type} [LinearOrder α] (a b : α) : a ≤ pyMax a b := by
  unfold pyMax
  split
  · exact le_refl a
  · exact le_of_not_le (by assumption)

theorem pyMax_le_of {α : Type} [LinearOrder α] {a b c : α} (h1 : a ≤ c) (h2 : b ≤ c) :
    pyMax a b ≤ c := by
  unfold pyMax
  split
  · exact h1
  · exact h2

theorem pyMin_le_left {α : Type} [LinearOrder α] (a b : α) : pyMin a b ≤ a := by
  unfold pyMin
  split
  · exact le_refl a
  · exact le_of_not_le (by assumption)

theorem clamp_lower {α : Type} [LinearOrder α] (v lo hi : α) : lo ≤ clamp v lo hi :=
  pyMax_left_le lo (pyMin hi v)

theorem clamp_upper {α : Type} [LinearOrder α] (v lo hi : α) (h : lo ≤ hi) :
    clamp v lo hi ≤ hi :=
  pyMax_le_of h (pyMin_le_left hi v)

theorem sort_desc_co2e_perm (l : List EmissionRow) :
    List.Perm (sort_desc_co2e l) l :=
  (List.reverse_perm _).trans (List.perm_insertionSort _ l)

theorem sort_desc_co2e_sorted (l : List EmissionRow) :
    List.Sorted (fun x y => y.co2e ≤ x.co2e) (sort_desc_co2e l) := by
  have h1 : List.Sorted (fun x y : EmissionRow => x.co2e ≤ y.co2e)
      (List.insertionSort (fun x y => x.co2e ≤ y.co2e) l) := by
    haveI : IsTotal EmissionRow (fun x y : EmissionRow => x.co2e ≤ y.co2e) :=
      ⟨fun a b => le_total _ _⟩
    haveI : IsTrans EmissionRow (fun x y : EmissionRow => x.co2e ≤ y.co2e) :=
      ⟨fun a b c => le_trans⟩
    exact List.sorted_insertionSort _ l
  rw [sort_desc_co2e, List.Sorted, List.pairwise_reverse]
  exact h1

theorem mapME_ok_forall2 {α β : Type} {f : α → Except FError β} :
    ∀ {xs : List α} {ys : List β}, mapME f xs = .ok ys →
      List.Forall₂ (fun x y => f x = .ok y) xs ys := by
  intro xs
  induction xs with
  | nil =>
    intro ys h
    rw [mapME] at h
    cases h
    exact List.Forall₂.nil
  | cons x xs ih =>
    intro ys h
    rw [mapME] at h
    cases hx : f x with
    | error e => rw [hx] at h; cases h
    | ok y =>
      rw [hx] at h
      cases hxs : mapME f xs with
      | error e => rw [hxs] at h; cases h
      | ok ys2 =>
        rw [hxs] at h
        cases h
        exact List.Forall₂.cons hx (ih hxs)

theorem forall2_mem_right {α β : Type} {R : α → β → Prop} :
    ∀ {xs : List α} {ys : List β}, List.Forall₂ R xs ys →
      ∀ y ∈ ys, ∃ x ∈ xs, R x y := by
  intro xs ys h
  induction h with
  | nil => intro y hy; cases hy
  | cons hr ht ih =>
    intro y hy
    rcases List.mem_cons.mp hy with rfl | hy2
    · exact ⟨_, List.mem_cons_self _ _, hr⟩
    · rcases ih y hy2 with ⟨x, hx, hxy⟩
      exact ⟨x, List.mem_cons_of_mem _ hx, hxy⟩

theorem forall2_mem_left {α β : Type} {R : α → β → Prop} :
    ∀ {xs : List α} {ys : List β}, List.Forall₂ R xs ys →
      ∀ x ∈ xs, ∃ y ∈ ys, R x y := by
  intro xs ys h
  induction h with
  | nil => intro x hx; cases hx
  | cons hr ht ih =>
    intro x hx
    rcases List.mem_cons.mp hx with rfl | hx2
    · exact ⟨_, List.mem_cons_self _ _, hr⟩
    · rcases ih x hx2 with ⟨y, hy, hxy⟩
      exact ⟨y, List.mem_cons_of_mem _ hy, hxy⟩

theorem mapME_ok_of_all_ok {α β : Type} {f : α → Except FError β} :
    ∀ {xs : List α}, (∀ x ∈ xs, ∃ y, f x = .ok y) →
      ∃ ys, mapME f xs = .ok ys ∧ List.Forall₂ (fun x y => f x = .ok y) xs ys := by
  intro xs
  induction xs with
  | nil => intro _; exact ⟨[], rfl, List.Forall₂.nil⟩
  | cons x xs ih =>
    intro h
    rcases h x (List.mem_cons_self _ _) with ⟨y, hy⟩
    rcases ih (fun a ha => h a (List.mem_cons_of_mem _ ha)) with ⟨ys, hys, hf⟩
    refine ⟨y :: ys, ?_, List.Forall₂.cons hy hf⟩
    rw [mapME, hy, hys]

/-! ## Lemmas about the merge and the missing-factor check -/

theorem mem_filter_sector {fac : List FactorRow} {s : String} {f : FactorRow} :
    f ∈ fac.filter (fun g => g.sector = s) ↔ f ∈ fac ∧ f.sector = s := by
  simp [List.mem_filter]

theorem filter_sector_not_empty {fac : List FactorRow} {a : ActivityRow}
    (h : ∃ f ∈ fac, f.sector = a.sector) :
    (fac.filter (fun g => g.sector = a.sector)).isEmpty = false := by
  rcases h with ⟨f, hf, hs⟩
  have hmem : f ∈ fac.filter (fun g => g.sector = a.sector) :=
    mem_filter_sector.mpr ⟨hf, hs⟩
  cases hfil : fac.filter (fun g => g.sector = a.sector) with
  | nil => rw [hfil] at hmem; cases hmem
  | cons x xs => rfl

theorem mergedRows_all_some {act : List ActivityRow} {fac : List FactorRow}
    (h : ∀ a ∈ act, ∃ f ∈ fac, f.sector = a.sector) :
    ∀ m ∈ mergedRows act fac, m.factors.isSome := by
  intro m hm
  rw [mergedRows, List.mem_flatMap] at hm
  obtain ⟨a, ha, hm2⟩ := hm
  rw [filter_sector_not_empty (h a ha)] at hm2
  simp only [Bool.false_eq_true, if_false, List.mem_map] at hm2
  obtain ⟨f, hf, hfm⟩ := hm2
  rw [← hfm]
  rfl

theorem missing_sectors_eq_nil {merged : List MergedRow}
    (h : ∀ m ∈ merged, m.factors.isSome) : missing_sectors merged = [] := by
  unfold missing_sectors
  have hfil : merged.filter (fun m => m.factors.isNone) = [] := by
    rw [List.filter_eq_nil_iff]
    intro m hm
    rcases Option.isSome_iff_exists.mp (h m hm) with ⟨v, hv⟩
    simp [hv]
  rw [hfil]
  rfl

theorem compute_sector_emissions_eq_ok {act : List ActivityRow}
    {fac : List FactorRow} (g : GWPOverrides)
    (h : ∀ a ∈ act, ∃ f ∈ fac, f.sector = a.sector) :
    compute_sector_emissions act fac g =
      .ok (sort_desc_co2e ((mergedRows act fac).map (emissionRow (effective_gwp g)))) := by
  unfold compute_sector_emissions
  rw [missing_sectors_eq_nil (mergedRows_all_some h)]
  rfl

theorem compute_sector_emissions_ok_inv {act : List ActivityRow}
    {fac : List FactorRow} {g : GWPOverrides} {rows : List EmissionRow}
    (h : compute_sector_emissions act fac g = .ok rows) :
    rows = sort_desc_co2e ((mergedRows act fac).map (emissionRow (effective_gwp g))) := by
  unfold compute_sector_emissions at h
  split at h
  · injection h with h2
    exact h2.symm
  · cases h

theorem mem_missing_sectors_iff {act : List ActivityRow} {fac : List FactorRow}
    {s : String} :
    s ∈ missing_sectors (mergedRows act fac) ↔
      ∃ a ∈ act, a.sector = s ∧ ∀ f ∈ fac, f.sector ≠ a.sector := by
  unfold missing_sectors
  constructor
  · intro hs
    rw [List.mem_map] at hs
    obtain ⟨m, hm, hms⟩ := hs
    rw [List.mem_filter] at hm
    obtain ⟨hmm, hnone⟩ := hm
    rw [mergedRows, List.mem_flatMap] at hmm
    obtain ⟨a, ha, hbr⟩ := hmm
    by_cases he : (fac.filter (fun g => g.sector = a.sector)).isEmpty = true
    · rw [he] at hbr
      simp only [if_true, List.mem_singleton] at hbr
      subst hbr
      refine ⟨a, ha, hms, ?_⟩
      intro f hf hsec
      have hfil : f ∈ fac.filter (fun g => g.sector = a.sector) :=
        mem_filter_sector.mpr ⟨hf, hsec⟩
      rw [List.isEmpty_iff] at he
      rw [he] at hfil
      cases hfil
    · rw [if_neg he] at hbr
      simp only [Bool.false_eq_true, if_false, List.mem_map] at hbr
      obtain ⟨f, hf, hfm⟩ := hbr
      rw [← hfm] at hnone
      cases hnone
  · intro hex
    obtain ⟨a, ha, hsec, hnomatch⟩ := hex
    refine List.mem_map.mpr ⟨⟨a.sector, a.activity, none⟩, ?_, hsec⟩
    rw [List.mem_filter]
    refine ⟨?_, rfl⟩
    rw [mergedRows, List.mem_flatMap]
    refine ⟨a, ha, ?_⟩
    have he : fac.filter (fun g => g.sector = a.sector) = [] := by
      rw [List.filter_eq_nil_iff]
      intro f hf
      simpa using hnomatch f hf
    rw [he]
    simp

theorem compute_sector_emissions_eq_error {act : List ActivityRow}
    {fac : List FactorRow} (g : GWPOverrides)
    (h : ∃ a ∈ act, ∀ f ∈ fac, f.sector ≠ a.sector) :
    compute_sector_emissions act fac g =
      .error (.missingFactors (missing_sectors (mergedRows act fac))) := by
  have hne : missing_sectors (mergedRows act fac) ≠ [] := by
    obtain ⟨a, ha, hno⟩ := h
    intro hnil
    have hmem : a.sector ∈ missing_sectors (mergedRows act fac) :=
      mem_missing_sectors_iff.mpr ⟨a, ha, rfl, hno⟩
    rw [hnil] at hmem
    cases hmem
  unfold compute_sector_emissions
  rw [if_neg]
  intro hc
  exact hne (List.isEmpty_iff.mp hc)

theorem length_filter_sector_le_one {fac : List FactorRow}
    (hn : (fac.map (fun f => f.sector)).Nodup) (s : String) :
    (fac.filter (fun g => g.sector = s)).length ≤ 1 := by
  induction fac with
  | nil => simp
  | cons f fac ih =>
    rw [List.map_cons, List.nodup_cons] at hn
    obtain ⟨hnot, hn2⟩ := hn
    by_cases hf : f.sector = s
    · have hrest : fac.filter (fun g => g.sector = s) = [] := by
        rw [List.filter_eq_nil_iff]
        intro g hg
        simp only [decide_eq_true_eq]
        intro hgs
        exact hnot (List.mem_map.mpr ⟨g, hg, by rw [hgs, hf]⟩)
      rw [List.filter_cons_of_pos (by simpa using hf), hrest]
      simp
    · rw [List.filter_cons_of_neg (by simpa using hf)]
      exact ih hn2

theorem mergedRows_map_spec {act : List ActivityRow} {fac : List FactorRow}
    (g : GWP) (hn : (fac.map (fun f => f.sector)).Nodup)
    (hm : ∀ a ∈ act, ∃ f ∈ fac, f.sector = a.sector) :
    (mergedRows act fac).map (emissionRow g) = act.map (specEmissionRow fac g) := by
  induction act with
  | nil => rfl
  | cons a act ih =>
    rw [mergedRows, List.flatMap_cons, List.map_append, List.map_cons]
    rw [← mergedRows, ih (fun b hb => hm b (List.mem_cons_of_mem _ hb))]
    rw [filter_sector_not_empty (hm a (List.mem_cons_self _ _))]
    cases hfil : fac.filter (fun g2 => g2.sector = a.sector) with
    | nil =>
      exfalso
      have hne := filter_sector_not_empty (hm a (List.mem_cons_self _ _))
      rw [hfil] at hne
      cases hne
    | cons f rest =>
      have hone := length_filter_sector_le_one hn a.sector
      rw [hfil] at hone
      have hrest : rest = [] := by
        cases rest with
        | nil => rfl
        | cons x xs => simp at hone
      subst hrest
      simp only [Bool.false_eq_true, if_false, List.map_cons, List.map_nil]
      rw [specEmissionRow, hfil]
      rfl

theorem specEmissionRow_of_match {fac : List FactorRow} (g : GWP)
    {a : ActivityRow} (h : ∃ f ∈ fac, f.sector = a.sector) :
    ∃ f ∈ fac, f.sector = a.sector ∧
      specEmissionRow fac g a =
        ⟨a.sector, a.activity, a.activity * f.co2_factor, a.activity * f.ch4_factor,
          a.activity * f.n2o_factor,
          a.activity * f.co2_factor + a.activity * f.ch4_factor * g.CH4 +
            a.activity * f.n2o_factor * g.N2O⟩ := by
  cases hfil : fac.filter (fun g2 => g2.sector = a.sector) with
  | nil =>
    exfalso
    have hne := filter_sector_not_empty h
    rw [hfil] at hne
    cases hne
  | cons f rest =>
    have hf : f ∈ fac.filter (fun g2 => g2.sector = a.sector) := by
      rw [hfil]; exact List.mem_cons_self _ _
    rw [mem_filter_sector] at hf
    refine ⟨f, hf.1, hf.2, ?_⟩
    rw [specEmissionRow, hfil]

theorem missing_sectors_ne_nil {act : List ActivityRow} {fac : List FactorRow}
    (h : ∃ a ∈ act, ∀ f ∈ fac, f.sector ≠ a.sector) :
    missing_sectors (mergedRows act fac) ≠ [] := by
  obtain ⟨a, ha, hno⟩ := h
  intro hnil
  have hmem : a.sector ∈ missing_sectors (mergedRows act fac) :=
    mem_missing_sectors_iff.mpr ⟨a, ha, rfl, hno⟩
  rw [hnil] at hmem
  cases hmem

theorem mergedRows_map_pairs {act : List ActivityRow} {fac : List FactorRow}
    (g : GWP) (hm : ∀ a ∈ act, ∃ f ∈ fac, f.sector = a.sector) :
    (mergedRows act fac).map (emissionRow g) =
      act.flatMap (fun a => (fac.filter (fun f => f.sector = a.sector)).map
        (fun f => emissionRow g
          ⟨a.sector, a.activity, some (f.co2_factor, f.ch4_factor, f.n2o_factor)⟩)) := by
  induction act with
  | nil => rfl
  | cons a act ih =>
    rw [mergedRows, List.flatMap_cons, List.map_append, ← mergedRows,
      ih (fun b hb => hm b (List.mem_cons_of_mem _ hb)), List.flatMap_cons]
    congr 1
    rw [filter_sector_not_empty (hm a (List.mem_cons_self _ _))]
    simp only [Bool.false_eq_true, if_false, List.map_map]
    rfl

/-! ## Claims about the emissions engine -/

attribute [local semireducible] Rat.mul Rat.add Rat.sub Rat.inv Rat.ofScientific in
/-- C1: for every activity table and factor table (unique by sector, per the
data model) that join without misses, `compute_sector_emissions` returns one
row per activity row, each row carrying `co2/ch4/n2o = activity × respective
factor` of the matching factor record and
`co2e = co2 + ch4·GWP_CH4 + n2o·GWP_N2O`, where the effective GWP is the
defaults `CO2=1, CH4=28, N2O=265` overridden per-key by any supplied
overrides; in particular activity 100 with factors `(1, 0.1, 0.01)` and
default GWP yields `co2e = 645`. -/
theorem C1_rows_factors_gwp (act : List ActivityRow) (fac : List FactorRow)
    (gwp : GWPOverrides)
    (hn : (fac.map (fun f => f.sector)).Nodup)
    (hm : ∀ a ∈ act, ∃ f ∈ fac, f.sector = a.sector) :
    ∃ rows, compute_sector_emissions act fac gwp = .ok rows ∧
      rows.length = act.length ∧
      List.Perm rows (act.map (specEmissionRow fac (effective_gwp gwp))) ∧
      (∀ a ∈ act, ∃ f ∈ fac, f.sector = a.sector ∧
        specEmissionRow fac (effective_gwp gwp) a =
          ⟨a.sector, a.activity, a.activity * f.co2_factor, a.activity * f.ch4_factor,
            a.activity * f.n2o_factor,
            a.activity * f.co2_factor + a.activity * f.ch4_factor * (effective_gwp gwp).CH4 +
              a.activity * f.n2o_factor * (effective_gwp gwp).N2O⟩) ∧
      effective_gwp gwp = ⟨gwp.CO2.getD 1, gwp.CH4.getD 28, gwp.N2O.getD 265⟩ ∧
      compute_sector_emissions [⟨"residential", 100⟩]
          [⟨"residential", 1, 1/10, 1/100⟩] noOverrides =
        .ok [⟨"residential", 100, 100, 10, 1, 645⟩] := by
  have hspec := mergedRows_map_spec (effective_gwp gwp) hn hm
  refine ⟨_, compute_sector_emissions_eq_ok gwp hm, ?_, ?_, ?_, rfl, by decide⟩
  · have hperm := sort_desc_co2e_perm ((mergedRows act fac).map (emissionRow (effective_gwp gwp)))
    rw [hperm.length_eq, hspec, List.length_map]
  · rw [← hspec]
    exact sort_desc_co2e_perm _
  · intro a ha
    exact specEmissionRow_of_match (effective_gwp gwp) (hm a ha)

attribute [local semireducible] Rat.mul Rat.add Rat.sub Rat.inv Rat.ofScientific in
/-- Witness for C1 at the spec's concrete example: the 645.0 row. -/
theorem C1_rows_factors_gwp_witness :
    compute_sector_emissions [⟨"residential", 100⟩]
        [⟨"residential", 1, 1/10, 1/100⟩] noOverrides =
      .ok [⟨"residential", 100, 100, 10, 1, 645⟩] := by
  obtain ⟨rows, h1, h2, h3, h4, h5, h6⟩ := C1_rows_factors_gwp
    [⟨"residential", 100⟩] [⟨"residential", 1, 1/10, 1/100⟩] noOverrides
    (by decide) (by decide)
  exact h6

/-- C2: whenever some activity row's sector has no matching factor row,
`compute_sector_emissions` raises a validation error listing exactly the
missing sectors and produces no result at all; a join miss is never
defaulted to zero. -/
theorem C2_join_miss_hard_error (act : List ActivityRow) (fac : List FactorRow)
    (gwp : GWPOverrides)
    (h : ∃ a ∈ act, ∀ f ∈ fac, f.sector ≠ a.sector) :
    ∃ l, compute_sector_emissions act fac gwp = .error (.missingFactors l) ∧
      l ≠ [] ∧
      (∀ s, s ∈ l ↔ ∃ a ∈ act, a.sector = s ∧ ∀ f ∈ fac, f.sector ≠ a.sector) ∧
      ∀ rows, compute_sector_emissions act fac gwp ≠ .ok rows := by
  refine ⟨missing_sectors (mergedRows act fac),
    compute_sector_emissions_eq_error gwp h, missing_sectors_ne_nil h,
    fun s => mem_missing_sectors_iff, ?_⟩
  intro rows hok
  rw [compute_sector_emissions_eq_error gwp h] at hok
  cases hok

/-- Witness for C2: a transport activity row with no transport factor. -/
theorem C2_join_miss_hard_error_witness :
    ∃ l, compute_sector_emissions [⟨"transport", 5⟩] [⟨"industry", 1, 1, 1⟩]
        noOverrides = .error (.missingFactors l) ∧ l ≠ [] := by
  obtain ⟨l, h1, h2, h3, h4⟩ := C2_join_miss_hard_error
    [⟨"transport", 5⟩] [⟨"industry", 1, 1, 1⟩] noOverrides (by decide)
  exact ⟨l, h1, h2⟩

attribute [local semireducible] Rat.mul Rat.add Rat.sub Rat.inv Rat.ofScientific in
/-- C6 fails on the code: two rows with equal `co2e` come out in reversed
join order (`sort_values` with the default unstable kind reverses the
ascending argsort), not original join order. -/
theorem C6_counterexample :
    compute_sector_emissions [⟨"a", 1⟩, ⟨"b", 1⟩]
        [⟨"a", 1, 0, 0⟩, ⟨"b", 1, 0, 0⟩] noOverrides =
      .ok [⟨"b", 1, 1, 0, 0, 1⟩, ⟨"a", 1, 1, 0, 0, 1⟩] ∧
    ([⟨"b", 1, 1, 0, 0, 1⟩, ⟨"a", 1, 1, 0, 0, 1⟩] : List EmissionRow) ≠
      [⟨"a", 1, 1, 0, 0, 1⟩, ⟨"b", 1, 1, 0, 0, 1⟩] := by decide

/-- C6 (amended): the rows returned by `compute_sector_emissions` are
ordered by `co2e` descending and are a permutation of the joined rows, but
the tie-break is not stable: rows with equal `co2e` appear in reversed join
order, not original join order. -/
theorem C6_sorted_desc_amended (act : List ActivityRow) (fac : List FactorRow)
    (gwp : GWPOverrides) (rows : List EmissionRow)
    (h : compute_sector_emissions act fac gwp = .ok rows) :
    List.Sorted (fun x y => y.co2e ≤ x.co2e) rows ∧
    List.Perm rows ((mergedRows act fac).map (emissionRow (effective_gwp gwp))) := by
  rw [compute_sector_emissions_ok_inv h]
  exact ⟨sort_desc_co2e_sorted _, sort_desc_co2e_perm _⟩

attribute [local semireducible] Rat.mul Rat.add Rat.sub Rat.inv Rat.ofScientific in
/-- Witness for the amended C6 at a two-row input with distinct `co2e`. -/
theorem C6_sorted_desc_amended_witness :
    List.Sorted (fun x y => y.co2e ≤ x.co2e)
      ([⟨"a", 2, 2, 0, 0, 2⟩, ⟨"b", 1, 1, 0, 0, 1⟩] : List EmissionRow) :=
  (C6_sorted_desc_amended [⟨"a", 2⟩, ⟨"b", 1⟩] [⟨"a", 1, 0, 0⟩, ⟨"b", 1, 0, 0⟩]
    noOverrides _ (by decide)).1

attribute [local semireducible] Rat.mul Rat.add Rat.sub Rat.inv Rat.ofScientific in
/-- C7 fails on the code: a duplicated factor sector produces one result row
per (activity row, matching factor row) pair — two rows here, not one
first-occurrence row. -/
theorem C7_counterexample :
    compute_sector_emissions [⟨"a", 1⟩] [⟨"a", 1, 0, 0⟩, ⟨"a", 2, 0, 0⟩]
        noOverrides =
      .ok [⟨"a", 1, 2, 0, 0, 2⟩, ⟨"a", 1, 1, 0, 0, 1⟩] ∧
    ([⟨"a", 1, 2, 0, 0, 2⟩, ⟨"a", 1, 1, 0, 0, 1⟩] : List EmissionRow).length = 2 ∧
    (2 : Nat) ≠ 1 := by decide

/-- C7 (amended): when the factor table contains several rows for the same
sector, `compute_sector_emissions` keeps every match — the result is a
permutation of one row per (activity row, matching factor row) pair, each
computed from its own duplicate's factors (first occurrence does not win). -/
theorem C7_duplicates_all_matches_amended (act : List ActivityRow)
    (fac : List FactorRow) (gwp : GWPOverrides)
    (hm : ∀ a ∈ act, ∃ f ∈ fac, f.sector = a.sector) :
    ∃ rows, compute_sector_emissions act fac gwp = .ok rows ∧
      List.Perm rows (act.flatMap (fun a =>
        (fac.filter (fun f => f.sector = a.sector)).map
          (fun f => emissionRow (effective_gwp gwp)
            ⟨a.sector, a.activity, some (f.co2_factor, f.ch4_factor, f.n2o_factor)⟩))) := by
  refine ⟨_, compute_sector_emissions_eq_ok gwp hm, ?_⟩
  rw [← mergedRows_map_pairs (effective_gwp gwp) hm]
  exact sort_desc_co2e_perm _

attribute [local semireducible] Rat.mul Rat.add Rat.sub Rat.inv Rat.ofScientific in
/-- Witness for the amended C7: one activity row against two duplicate
factor rows yields two result rows. -/
theorem C7_duplicates_all_matches_amended_witness :
    ∃ rows, compute_sector_emissions [⟨"b", 2⟩] [⟨"b", 1, 0, 0⟩, ⟨"b", 3, 0, 0⟩]
        noOverrides = .ok rows ∧ rows.length = 2 := by
  obtain ⟨rows, h1, h2⟩ := C7_duplicates_all_matches_amended
    [⟨"b", 2⟩] [⟨"b", 1, 0, 0⟩, ⟨"b", 3, 0, 0⟩] noOverrides (by decide)
  refine ⟨rows, h1, ?_⟩
  rw [h2.length_eq]
  decide

/-! ## Claims about scenario application and urban-form modifiers -/

theorem scaleSector_eq_map (df : List ActivityRow) (s : String) (m : ℚ) :
    scaleSector df s m =
      df.map (fun a => if a.sector = s then ⟨a.sector, a.activity * m⟩ else a) := by
  unfold scaleSector
  split
  · rfl
  · rename_i hany
    have h : ∀ a ∈ df, ¬ a.sector = s := by
      intro a ha hs
      exact hany (List.any_eq_true.mpr ⟨a, ha, by simpa using hs⟩)
    have hmap : df.map (fun a => if a.sector = s then (⟨a.sector, a.activity * m⟩ : ActivityRow) else a) = df.map id :=
      List.map_congr_left (fun a ha => by rw [if_neg (h a ha)]; rfl)
    rw [hmap, List.map_id]

attribute [local semireducible] Rat.mul Rat.add Rat.sub Rat.inv Rat.ofScientific in
/-- C5: `apply_scenario` multiplies residential and energy activity by
`1 − energy_efficiency`, transport by `1 − modal_shift`, industry by
`1 − industry_efficiency`, waste by `1 − waste_reduction` (all intensities
first clamped into `[0,1]` by normalization), multiplies only the energy
sector's three factor columns by `1 − renewable_share`, leaves every other
sector's rows unchanged, and is a no-op for sectors absent from the tables;
the spec's concrete instance: with `energy_efficiency=0.1, modal_shift=0.2,
renewable_share=0.3`, transport 2000 becomes 1600, residential 1000 becomes
900, and the energy `co2_factor` 1 becomes 0.7. -/
theorem C5_apply_scenario_multipliers (act : List ActivityRow)
    (fac : List FactorRow) (scenario : Scenario) :
    ((apply_scenario act fac scenario).1 = act.map (fun a =>
        if a.sector = "residential" then
          ⟨a.sector, a.activity * (1 - clamp scenario.energy_efficiency 0 1)⟩
        else if a.sector = "energy" then
          ⟨a.sector, a.activity * (1 - clamp scenario.energy_efficiency 0 1)⟩
        else if a.sector = "transport" then
          ⟨a.sector, a.activity * (1 - clamp scenario.modal_shift 0 1)⟩
        else if a.sector = "industry" then
          ⟨a.sector, a.activity * (1 - clamp scenario.industry_efficiency 0 1)⟩
        else if a.sector = "waste" then
          ⟨a.sector, a.activity * (1 - clamp scenario.waste_reduction 0 1)⟩
        else a)) ∧
    ((apply_scenario act fac scenario).2 = fac.map (fun f =>
        if f.sector = "energy" then
          ⟨f.sector, f.co2_factor * (1 - clamp scenario.renewable_share 0 1),
            f.ch4_factor * (1 - clamp scenario.renewable_share 0 1),
            f.n2o_factor * (1 - clamp scenario.renewable_share 0 1)⟩
        else f)) ∧
    apply_scenario
        [⟨"residential", 1000⟩, ⟨"transport", 2000⟩, ⟨"industry", 500⟩,
          ⟨"waste", 200⟩, ⟨"energy", 800⟩]
        [⟨"residential", 1, 0, 0⟩, ⟨"transport", 1, 0, 0⟩, ⟨"industry", 1, 0, 0⟩,
          ⟨"waste", 1, 0, 0⟩, ⟨"energy", 1, 0, 0⟩]
        ⟨"mit", 1/10, 3/10, 1/5, 0, 0⟩ =
      ([⟨"residential", 900⟩, ⟨"transport", 1600⟩, ⟨"industry", 500⟩,
          ⟨"waste", 200⟩, ⟨"energy", 720⟩],
       [⟨"residential", 1, 0, 0⟩, ⟨"transport", 1, 0, 0⟩, ⟨"industry", 1, 0, 0⟩,
          ⟨"waste", 1, 0, 0⟩, ⟨"energy", 7/10, 0, 0⟩]) := by
  refine ⟨?_, ?_, by decide⟩
  · simp only [apply_scenario, adjustmentsList, List.foldl_cons, List.foldl_nil,
      scaleSector_eq_map, List.map_map]
    refine List.map_congr_left ?_
    intro a ha
    by_cases h1 : a.sector = "residential"
    · simp [h1, Scenario.normalized]
    · by_cases h2 : a.sector = "energy"
      · simp [h1, h2, Scenario.normalized]
      · by_cases h3 : a.sector = "transport"
        · simp [h1, h2, h3, Scenario.normalized]
        · by_cases h4 : a.sector = "industry"
          · simp [h1, h2, h3, h4, Scenario.normalized]
          · by_cases h5 : a.sector = "waste"
            · simp [h1, h2, h3, h4, h5, Scenario.normalized]
            · simp [h1, h2, h3, h4, h5]
  · simp only [apply_scenario]
    split
    · rfl
    · rename_i hany
      have h : ∀ f ∈ fac, ¬ f.sector = "energy" := by
        intro f hf hs
        exact hany (List.any_eq_true.mpr ⟨f, hf, by simpa using hs⟩)
      have hmap : fac.map (fun f =>
          if f.sector = "energy" then
            (⟨f.sector, f.co2_factor * (1 - clamp scenario.renewable_share 0 1),
              f.ch4_factor * (1 - clamp scenario.renewable_share 0 1),
              f.n2o_factor * (1 - clamp scenario.renewable_share 0 1)⟩ : FactorRow)
          else f) = fac.map id :=
        List.map_congr_left (fun f hf => by rw [if_neg (h f hf)]; rfl)
      rw [hmap, List.map_id]

/-- C9: `calculate_urban_modifiers` returns exactly the clamped formulas of
the spec — transport is the clamped product of the density, compactness and
transit effects, residential and energy are the clamped building modifier —
so the transport modifier always lies in `[0.45, 1.10]` and the
residential/energy modifiers always lie in `[0.80, 1.05]`. -/
theorem C9_urban_modifier_formulas_and_bounds (p : UrbanFormParameters) :
    calculate_urban_modifiers p =
      ⟨clamp (clamp (1 - 0.08 * Real.log (1 + pyMax p.density_per_km2 1 / 1000)) 0.65 1.05 *
          clamp (1 - 0.2 * p.compactness_index) 0.75 1.05 *
          clamp (1 - 0.25 * p.transit_access_index) 0.7 1.05) 0.45 1.1,
        clamp (1 - 0.1 * p.compactness_index) 0.8 1.05,
        clamp (1 - 0.1 * p.compactness_index) 0.8 1.05⟩ ∧
    (0.45 ≤ (calculate_urban_modifiers p).transport ∧
      (calculate_urban_modifiers p).transport ≤ 1.1) ∧
    (0.8 ≤ (calculate_urban_modifiers p).residential ∧
      (calculate_urban_modifiers p).residential ≤ 1.05) ∧
    (calculate_urban_modifiers p).energy = (calculate_urban_modifiers p).residential := by
  refine ⟨rfl, ⟨clamp_lower _ _ _, clamp_upper _ _ _ (by norm_num)⟩,
    ⟨clamp_lower _ _ _, clamp_upper _ _ _ (by norm_num)⟩, rfl⟩

/-! ## Lemmas about the forecast pipeline -/

theorem sectors_scaleSector (df : List ActivityRow) (s : String) (m : ℚ) :
    (scaleSector df s m).map (fun a => a.sector) = df.map (fun a => a.sector) := by
  rw [scaleSector_eq_map, List.map_map]
  refine List.map_congr_left ?_
  intro a ha
  by_cases h : a.sector = s <;> simp [Function.comp, h]

theorem sectors_foldl_scale (mods : List (String × ℚ)) :
    ∀ df : List ActivityRow,
      ((mods.foldl (fun d sm => scaleSector d sm.1 sm.2) df).map (fun a => a.sector)) =
        df.map (fun a => a.sector) := by
  induction mods with
  | nil => intro df; rfl
  | cons sm mods ih =>
    intro df
    rw [List.foldl_cons, ih (scaleSector df sm.1 sm.2), sectors_scaleSector]

theorem sectors_scale_isin (df : List ActivityRow) (sectors : List String) (m : ℚ) :
    (scale_isin df sectors m).map (fun a => a.sector) = df.map (fun a => a.sector) := by
  rw [scale_isin, List.map_map]
  refine List.map_congr_left ?_
  intro a ha
  by_cases h : a.sector ∈ sectors <;> simp [Function.comp, h]

theorem sectors_um_step (df : List ActivityRow) (um : Option (List (String × ℚ))) :
    (um_step df um).map (fun a => a.sector) = df.map (fun a => a.sector) := by
  cases um with
  | none => rfl
  | some mods =>
    rw [um_step]
    split
    · rfl
    · rw [apply_urban_form_modifiers, sectors_foldl_scale]

theorem sectors_apply_scenario_act (act : List ActivityRow) (fac : List FactorRow)
    (scn : Scenario) :
    ((apply_scenario act fac scn).1).map (fun a => a.sector) = act.map (fun a => a.sector) := by
  simp only [apply_scenario]
  exact sectors_foldl_scale (adjustmentsList scn.normalized) act

theorem sectors_apply_scenario_fac (act : List ActivityRow) (fac : List FactorRow)
    (scn : Scenario) :
    ((apply_scenario act fac scn).2).map (fun f => f.sector) = fac.map (fun f => f.sector) := by
  simp only [apply_scenario]
  split
  · rw [List.map_map]
    refine List.map_congr_left ?_
    intro f hf
    by_cases h : f.sector = "energy" <;> simp [Function.comp, h]
  · rfl

theorem match_of_sectors_eq {act2 act : List ActivityRow} {fac2 fac : List FactorRow}
    (ha : act2.map (fun a => a.sector) = act.map (fun a => a.sector))
    (hf : fac2.map (fun f => f.sector) = fac.map (fun f => f.sector))
    (hm : ∀ a ∈ act, ∃ f ∈ fac, f.sector = a.sector) :
    ∀ a ∈ act2, ∃ f ∈ fac2, f.sector = a.sector := by
  intro a haa
  have hs : a.sector ∈ act.map (fun x => x.sector) := by
    rw [← ha]
    exact List.mem_map_of_mem _ haa
  rcases List.mem_map.mp hs with ⟨b, hb, hbs⟩
  rcases hm b hb with ⟨f, hfb, hfs⟩
  have hfs2 : f.sector ∈ fac2.map (fun x => x.sector) := by
    rw [hf]
    exact List.mem_map_of_mem _ hfb
  rcases List.mem_map.mp hfs2 with ⟨f2, hf2, hf2s⟩
  exact ⟨f2, hf2, by rw [hf2s, hfs, hbs]⟩

theorem cell_tables_match {base : List ActivityRow} {fac : List FactorRow}
    {pg gg : ℚ} {t : ℕ} {um : Option (List (String × ℚ))} {scn : Scenario}
    (hm : ∀ a ∈ base, ∃ f ∈ fac, f.sector = a.sector) :
    ∀ a ∈ (cell_tables base fac pg gg t um scn).1,
      ∃ f ∈ (cell_tables base fac pg gg t um scn).2, f.sector = a.sector := by
  refine match_of_sectors_eq ?_ ?_ hm
  · rw [cell_tables, sectors_apply_scenario_act, sectors_um_step, sectors_scale_isin,
      sectors_scale_isin]
  · rw [cell_tables, sectors_apply_scenario_fac]

theorem forecast_cell_exists_ok {base : List ActivityRow} {fac : List FactorRow}
    {pb pg gpc gg : ℚ} {sy : Int} {um : Option (List (String × ℚ))}
    {scn : Scenario} {y : Int}
    (hm : ∀ a ∈ base, ∃ f ∈ fac, f.sector = a.sector) :
    ∃ r, forecast_cell base fac pb pg gpc gg sy um scn y = .ok r := by
  have hok := compute_sector_emissions_eq_ok noOverrides
    (@cell_tables_match base fac pg gg ((y - sy).toNat) um scn hm)
  simp only [forecast_cell]
  rw [hok]
  exact ⟨_, rfl⟩

theorem forecast_cell_ok_fields {base : List ActivityRow} {fac : List FactorRow}
    {pb pg gpc gg : ℚ} {sy : Int} {um : Option (List (String × ℚ))}
    {scn : Scenario} {y : Int} {r : ForecastRecord}
    (h : forecast_cell base fac pb pg gpc gg sy um scn y = .ok r) :
    r.year = y ∧ r.scenario = scn.name ∧
    r.population = pb * (1 + pg) ^ (y - sy).toNat ∧
    r.gdp = pb * (1 + pg) ^ (y - sy).toNat * (gpc * (1 + gg) ^ (y - sy).toNat) ∧
    ∃ srows, compute_sector_emissions
        (cell_tables base fac pg gg (y - sy).toNat um scn).1
        (cell_tables base fac pg gg (y - sy).toNat um scn).2 noOverrides = .ok srows ∧
      r.total_co2e = (srows.map (fun x => x.co2e)).sum ∧
      r.per_capita_co2e = safe_divide r.total_co2e r.population ∧
      r.per_gdp_co2e = safe_divide r.total_co2e r.gdp := by
  simp only [forecast_cell] at h
  split at h
  · cases h
  · rename_i sector heq
    injection h with h2
    subst h2
    exact ⟨rfl, rfl, rfl, rfl, sector, heq, rfl, rfl, rfl⟩

theorem year_range_le {s e : Int} (h : s ≤ e) :
    year_range s e = .ok (yearsList s e) := by
  rw [year_range, if_neg (not_lt.mpr h)]

theorem year_range_gt {s e : Int} (h : e < s) :
    year_range s e = .error (.valueError "end_year must be >= start_year") := by
  rw [year_range, if_pos h]

theorem yearsList_single (s : Int) : yearsList s s = [s] := by
  rw [yearsList]
  have h1 : (s + 1 - s : Int) = 1 := by omega
  rw [h1]
  simp [List.range_succ]

theorem forecast_scenarios_ok_inv {base : List ActivityRow} {fac : List FactorRow}
    {pb pg gpc gg : ℚ} {sy ey : Int} {scns : List Scenario}
    {um : Option (List (String × ℚ))} {rows : List ForecastRow}
    (h : forecast_scenarios base fac pb pg gpc gg sy ey scns um = .ok rows) :
    ∃ records, forecast_records base fac pb pg gpc gg sy ey scns um = .ok records ∧
      records ≠ [] ∧ rows = baseline_join records := by
  rw [forecast_scenarios] at h
  split at h
  · cases h
  · rename_i records heq
    split at h
    · cases h
    · rename_i hne
      injection h with h2
      refine ⟨records, heq, ?_, h2.symm⟩
      intro hnil
      exact hne (by rw [hnil]; rfl)

theorem forecast_records_ok_inv {base : List ActivityRow} {fac : List FactorRow}
    {pb pg gpc gg : ℚ} {sy ey : Int} {scns : List Scenario}
    {um : Option (List (String × ℚ))} {records : List ForecastRecord}
    (h : forecast_records base fac pb pg gpc gg sy ey scns um = .ok records) :
    ∃ lists, mapME (cells_for_scenario base fac pb pg gpc gg sy ey um) scns = .ok lists ∧
      records = lists.flatten := by
  rw [forecast_records] at h
  split at h
  · cases h
  · rename_i lists heq
    injection h with h2
    exact ⟨lists, heq, h2.symm⟩

theorem cells_for_scenario_ok_inv {base : List ActivityRow} {fac : List FactorRow}
    {pb pg gpc gg : ℚ} {sy ey : Int} {um : Option (List (String × ℚ))}
    {scn : Scenario} {l : List ForecastRecord}
    (h : cells_for_scenario base fac pb pg gpc gg sy ey um scn = .ok l) :
    sy ≤ ey ∧
      mapME (forecast_cell base fac pb pg gpc gg sy um scn) (yearsList sy ey) = .ok l := by
  rw [cells_for_scenario] at h
  split at h
  · cases h
  · rename_i years heq
    rw [year_range] at heq
    split at heq
    · cases heq
    · rename_i hlt
      injection heq with h2
      subst h2
      exact ⟨not_lt.mp hlt, h⟩

theorem scale_isin_pipeline (base : List ActivityRow) (p m : ℚ) :
    scale_isin (scale_isin base ["residential", "transport", "waste"] p)
        ["industry", "energy"] m =
      base.map (fun a =>
        if a.sector ∈ ["residential", "transport", "waste"] then
          ⟨a.sector, a.activity * p⟩
        else if a.sector ∈ ["industry", "energy"] then
          ⟨a.sector, a.activity * m⟩
        else a) := by
  rw [scale_isin, scale_isin, List.map_map]
  refine List.map_congr_left ?_
  intro a ha
  by_cases h1 : a.sector ∈ ["residential", "transport", "waste"]
  · have h2 : a.sector ∉ ["industry", "energy"] := by
      simp only [List.mem_cons, List.not_mem_nil, or_false] at h1 ⊢
      rcases h1 with h | h | h <;> simp [h]
    simp [Function.comp, h1, h2]
  · by_cases h2 : a.sector ∈ ["industry", "energy"]
    · simp [Function.comp, h1, h2]
    · simp [Function.comp, h1, h2]

/-! ## Claims about the forecast orchestrator -/

/-- C10: with an empty scenarios iterable, `forecast_scenarios` never
returns a result: for every choice of the remaining arguments it raises the
`KeyError` of the baseline-join step (a column lookup on the empty,
column-less record set), and even when `end_year < start_year` the
year-range `ValueError` is not raised, because that check only runs inside
the per-scenario loop. -/
theorem C10_empty_scenarios_keyerror (base : List ActivityRow)
    (fac : List FactorRow) (pb pg gpc gg : ℚ) (sy ey : Int)
    (um : Option (List (String × ℚ))) :
    forecast_scenarios base fac pb pg gpc gg sy ey [] um =
      .error (.keyError "scenario") ∧
    (∀ rows, forecast_scenarios base fac pb pg gpc gg sy ey [] um ≠ .ok rows) ∧
    (∀ msg, forecast_scenarios base fac pb pg gpc gg sy ey [] um ≠
      .error (.valueError msg)) := by
  have h : forecast_scenarios base fac pb pg gpc gg sy ey [] um =
      .error (.keyError "scenario") := rfl
  refine ⟨h, ?_, ?_⟩
  · intro rows hc
    rw [h] at hc
    simp at hc
  · intro msg hc
    rw [h] at hc
    simp at hc

/-- C3: in every successful (scenario, year) cell of the forecast with
`year ≥ start_year` and `t = year − start_year`, the population equals
`population_base·(1+population_growth)^t`, gdp equals
`population × gdp_per_capita_base·(1+gdp_growth)^t`, the base activity is
scaled by `pop_scale` for residential/transport/waste and by the arithmetic
mean of `pop_scale` and `gdp_scale` for industry/energy, and the cell's
summary is computed from those scaled tables only after the urban modifiers
and the scenario are applied to them. -/
theorem C3_growth_compounding (base : List ActivityRow) (fac : List FactorRow)
    (pb pg gpc gg : ℚ) (sy : Int) (um : Option (List (String × ℚ)))
    (scn : Scenario) (y : Int) (r : ForecastRecord)
    (hy : sy ≤ y)
    (h : forecast_cell base fac pb pg gpc gg sy um scn y = .ok r) :
    (((y - sy).toNat : Int) = y - sy) ∧
    r.year = y ∧
    r.population = pb * (1 + pg) ^ (y - sy).toNat ∧
    r.gdp = r.population * (gpc * (1 + gg) ^ (y - sy).toNat) ∧
    (scale_isin (scale_isin base ["residential", "transport", "waste"]
        ((1 + pg) ^ (y - sy).toNat))
        ["industry", "energy"] (((1 + pg) ^ (y - sy).toNat + (1 + gg) ^ (y - sy).toNat) / 2) =
      base.map (fun a =>
        if a.sector ∈ ["residential", "transport", "waste"] then
          ⟨a.sector, a.activity * (1 + pg) ^ (y - sy).toNat⟩
        else if a.sector ∈ ["industry", "energy"] then
          ⟨a.sector, a.activity * (((1 + pg) ^ (y - sy).toNat + (1 + gg) ^ (y - sy).toNat) / 2)⟩
        else a)) ∧
    ∃ srows, compute_sector_emissions
        (cell_tables base fac pg gg (y - sy).toNat um scn).1
        (cell_tables base fac pg gg (y - sy).toNat um scn).2 noOverrides = .ok srows ∧
      r.total_co2e = (srows.map (fun x => x.co2e)).sum ∧
      r.per_capita_co2e = safe_divide r.total_co2e r.population ∧
      r.per_gdp_co2e = safe_divide r.total_co2e r.gdp := by
  obtain ⟨hyear, hname, hpop, hgdp, srows, hsr, ht, hpc, hpg2⟩ :=
    forecast_cell_ok_fields h
  refine ⟨Int.toNat_of_nonneg (by omega), hyear, hpop, ?_,
    scale_isin_pipeline base ((1 + pg) ^ (y - sy).toNat)
      (((1 + pg) ^ (y - sy).toNat + (1 + gg) ^ (y - sy).toNat) / 2),
    srows, hsr, ht, hpc, hpg2⟩
  rw [hgdp, hpop]

attribute [local semireducible] Rat.mul Rat.add Rat.sub Rat.inv Rat.ofScientific in
/-- Witness for C3: a single-cell forecast one year past the start with
doubling population growth. -/
theorem C3_growth_compounding_witness :
    (⟨2026, "s", 200, 10, 2, 20, 100⟩ : ForecastRecord).population =
      10 * (1 + 1) ^ ((2026 : Int) - 2025).toNat :=
  (C3_growth_compounding [⟨"residential", 100⟩] [⟨"residential", 1, 0, 0⟩]
    10 1 5 0 2025 none ⟨"s", 0, 0, 0, 0, 0⟩ 2026 ⟨2026, "s", 200, 10, 2, 20, 100⟩
    (by decide) (by decide)).2.2.1

theorem mapME_cons_error {α β : Type} {f : α → Except FError β} {x : α}
    {xs : List α} {e : FError} (h : f x = .error e) :
    mapME f (x :: xs) = .error e := by
  rw [mapME, h]

theorem mapME_singleton {α β : Type} {f : α → Except FError β} {x : α} {y : β}
    (h : f x = .ok y) : mapME f [x] = .ok [y] := by
  rw [mapME, h]
  rfl

theorem forall2_flatten_singleton {R : Scenario → ForecastRecord → Prop} :
    ∀ {scns : List Scenario} {lists : List (List ForecastRecord)},
      List.Forall₂ (fun scn l => ∃ r, l = [r] ∧ R scn r) scns lists →
      List.Forall₂ R scns lists.flatten := by
  intro scns lists h
  induction h with
  | nil => exact .nil
  | cons hr ht ih =>
    obtain ⟨r, rfl, hR⟩ := hr
    simpa using List.Forall₂.cons hR ih

theorem forall2_strengthen {α β : Type} {R S : α → β → Prop} :
    ∀ {xs : List α} {ys : List β}, List.Forall₂ R xs ys →
      (∀ x ∈ xs, ∀ y, R x y → S x y) → List.Forall₂ S xs ys := by
  intro xs ys h
  induction h with
  | nil => intro _; exact .nil
  | cons hr ht ih =>
    intro hs
    exact .cons (hs _ (List.mem_cons_self _ _) _ hr)
      (ih (fun x hx => hs x (List.mem_cons_of_mem _ hx)))

theorem filter_baseline_length {scns : List Scenario} {records : List ForecastRecord}
    (hf : List.Forall₂ (fun scn r => r.scenario = scn.name) scns records) :
    (records.filter (fun r => lowercase r.scenario = "baseline")).length =
      (scns.filter (fun s => lowercase s.name = "baseline")).length := by
  induction hf with
  | nil => rfl
  | cons hr ht ih =>
    rename_i scn r scns2 records2
    by_cases hb : lowercase r.scenario = "baseline"
    · rw [List.filter_cons_of_pos (by simpa using hb),
        List.filter_cons_of_pos (by rw [hr] at hb; simpa using hb)]
      simp [ih]
    · rw [List.filter_cons_of_neg (by simpa using hb),
        List.filter_cons_of_neg (by rw [hr] at hb; simpa using hb)]
      exact ih

theorem length_flatMap_of_forall_one {α β : Type} (f : α → List β) (l : List α)
    (h : ∀ x, (f x).length = 1) : (l.flatMap f).length = l.length := by
  induction l with
  | nil => rfl
  | cons x xs ih =>
    rw [List.flatMap_cons, List.length_append, h x, ih, List.length_cons]
    omega

theorem baseline_join_length (records : List ForecastRecord)
    (h : (baselinePairs records).length ≤ 1) :
    (baseline_join records).length = records.length := by
  have hlen : ∀ r, (joinBranch (baselinePairs records) r).length = 1 := by
    intro r
    rw [joinBranch]
    split
    · rfl
    · rename_i hne2
      rw [List.length_map]
      have h1 : ((baselinePairs records).filter (fun b => b.1 = r.year)).length ≤ 1 :=
        le_trans (List.length_filter_le _ _) h
      have h2 : (baselinePairs records).filter (fun b => b.1 = r.year) ≠ [] := by
        intro hnil
        exact hne2 (by rw [hnil]; rfl)
      have h3 : 0 < ((baselinePairs records).filter (fun b => b.1 = r.year)).length :=
        List.length_pos.mpr h2
      omega
  rw [baseline_join, List.length_map, length_flatMap_of_forall_one _ _ hlen]

/-- C8 fails on the code: with an empty scenarios list the code raises
`KeyError("scenario")` both when `end_year < start_year` (so the year-range
validation error is not raised) and when `start_year == end_year` (so no
row set of length `len(scenarios) = 0` is returned). -/
theorem C8_counterexample :
    forecast_scenarios [⟨"a", 1⟩] [⟨"a", 1, 0, 0⟩] 1 0 1 0 2025 2024 [] none =
      .error (.keyError "scenario") ∧
    forecast_scenarios [⟨"a", 1⟩] [⟨"a", 1, 0, 0⟩] 1 0 1 0 2025 2025 [] none =
      .error (.keyError "scenario") ∧
    (Except.error (FError.keyError "scenario") ≠
      (.ok [] : Except FError (List ForecastRow))) ∧
    FError.keyError "scenario" ≠ .valueError "end_year must be >= start_year" := by
  decide

/-- C8 (amended): for every input with a NONEMPTY scenarios list,
`forecast_scenarios` raises the year-range validation error whenever
`end_year < start_year`; and when `start_year == end_year`, the factor
table covers every activity sector, and at most one scenario is named
"baseline" case-insensitively, it returns exactly `len(scenarios)` rows. -/
theorem C8_nonempty_scenarios_amended (base : List ActivityRow)
    (fac : List FactorRow) (pb pg gpc gg : ℚ) (sy ey : Int)
    (scns : List Scenario) (um : Option (List (String × ℚ)))
    (hne : scns ≠ []) :
    (ey < sy → forecast_scenarios base fac pb pg gpc gg sy ey scns um =
      .error (.valueError "end_year must be >= start_year")) ∧
    (sy = ey → (∀ a ∈ base, ∃ f ∈ fac, f.sector = a.sector) →
      (scns.filter (fun s => lowercase s.name = "baseline")).length ≤ 1 →
      ∃ rows, forecast_scenarios base fac pb pg gpc gg sy ey scns um = .ok rows ∧
        rows.length = scns.length) := by
  constructor
  · intro hlt
    cases scns with
    | nil => exact absurd rfl hne
    | cons scn rest =>
      have hc : cells_for_scenario base fac pb pg gpc gg sy ey um scn =
          .error (.valueError "end_year must be >= start_year") := by
        rw [cells_for_scenario, year_range_gt hlt]
      rw [forecast_scenarios, forecast_records, mapME_cons_error hc]
  · intro hse hm hb1
    subst hse
    have hcells : ∀ scn ∈ scns, ∃ l,
        cells_for_scenario base fac pb pg gpc gg sy sy um scn = .ok l ∧
          ∃ r, l = [r] ∧ r.scenario = scn.name := by
      intro scn hscn
      obtain ⟨r, hr⟩ := @forecast_cell_exists_ok base fac pb pg gpc gg sy um scn sy hm
      refine ⟨[r], ?_, r, rfl, (forecast_cell_ok_fields hr).2.1⟩
      rw [cells_for_scenario, year_range_le (le_refl sy), yearsList_single]
      exact mapME_singleton hr
    obtain ⟨lists, hlists, hfor⟩ := mapME_ok_of_all_ok
      (fun scn hscn => (hcells scn hscn).imp (fun l hl => hl.1))
    have hfor2 : List.Forall₂ (fun scn l => ∃ r, l = [r] ∧ r.scenario = scn.name)
        scns lists := by
      refine forall2_strengthen hfor ?_
      intro scn hscn l hl
      obtain ⟨l0, hl0, hprops⟩ := hcells scn hscn
      rw [hl] at hl0
      injection hl0 with h2
      rw [h2]
      exact hprops
    have hforall : List.Forall₂ (fun scn r => r.scenario = scn.name)
        scns lists.flatten := forall2_flatten_singleton hfor2
    have hlenrec : lists.flatten.length = scns.length := hforall.length_eq.symm
    have hrecords : forecast_records base fac pb pg gpc gg sy sy scns um =
        .ok lists.flatten := by
      rw [forecast_records, hlists]
    have hnonempty : lists.flatten.isEmpty = false := by
      cases hflat : lists.flatten with
      | nil =>
        exfalso
        rw [hflat] at hlenrec
        exact hne (List.length_eq_zero.mp hlenrec.symm)
      | cons x xs => rfl
    have hpairs : (baselinePairs lists.flatten).length ≤ 1 := by
      rw [baselinePairs, List.length_map, filter_baseline_length hforall]
      exact hb1
    refine ⟨baseline_join lists.flatten, ?_, ?_⟩
    · rw [forecast_scenarios, hrecords]
      exact if_neg (by rw [hnonempty]; simp)
    · rw [baseline_join_length _ hpairs, hlenrec]

attribute [local semireducible] Rat.mul Rat.add Rat.sub Rat.inv Rat.ofScientific in
/-- Witness for the amended C8: one scenario, one year, one row. -/
theorem C8_nonempty_scenarios_amended_witness :
    ∃ rows, forecast_scenarios [⟨"a", 1⟩] [⟨"a", 1, 0, 0⟩] 1 0 1 0 2025 2025
        [⟨"only", 0, 0, 0, 0, 0⟩] none = .ok rows ∧ rows.length = 1 := by
  obtain ⟨rows, h1, h2⟩ := (C8_nonempty_scenarios_amended [⟨"a", 1⟩]
    [⟨"a", 1, 0, 0⟩] 1 0 1 0 2025 2025 [⟨"only", 0, 0, 0, 0, 0⟩] none
    (by decide)).2 rfl (by decide) (by decide)
  exact ⟨rows, h1, h2⟩

theorem baseline_join_spec (records : List ForecastRecord)
    (hcov : ∀ r ∈ records, ∃ br ∈ records,
      lowercase br.scenario = "baseline" ∧ br.year = r.year) :
    ∀ row ∈ baseline_join records,
      (lowercase row.scenario = "baseline" →
        row.change_vs_baseline_pct = some 0) ∧
      (lowercase row.scenario ≠ "baseline" →
        ∃ b ∈ baseline_join records, lowercase b.scenario = "baseline" ∧
          b.year = row.year ∧
          row.change_vs_baseline_pct =
            some ((row.total_co2e - b.total_co2e) / b.total_co2e * 100)) := by
  intro row hrow
  rw [baseline_join, List.mem_map] at hrow
  obtain ⟨mrow, hmrow, hfin⟩ := hrow
  rw [List.mem_flatMap] at hmrow
  obtain ⟨r, hr, hbr⟩ := hmrow
  rw [joinBranch] at hbr
  obtain ⟨br0, hbr0, hbl0, hyr0⟩ := hcov r hr
  have hpair : (br0.year, br0.total_co2e) ∈
      (baselinePairs records).filter (fun b => b.1 = r.year) := by
    rw [List.mem_filter]
    constructor
    · rw [baselinePairs, List.mem_map]
      exact ⟨br0, List.mem_filter.mpr ⟨hbr0, by simpa using hbl0⟩, rfl⟩
    · simpa using hyr0
  have hbs : ((baselinePairs records).filter (fun b => b.1 = r.year)).isEmpty = false := by
    cases hx : (baselinePairs records).filter (fun b => b.1 = r.year) with
    | nil => rw [hx] at hpair; cases hpair
    | cons x xs => rfl
  rw [hbs] at hbr
  simp only [Bool.false_eq_true, if_false, List.mem_map] at hbr
  obtain ⟨p, hp, hjoin⟩ := hbr
  rw [List.mem_filter] at hp
  obtain ⟨hpmem, hpyr⟩ := hp
  have hpyr2 : p.1 = r.year := by simpa using hpyr
  subst hjoin
  constructor
  · intro hbl
    by_cases hc : lowercase (joinedRow r (some p.2)).scenario = "baseline"
    · rw [if_pos hc] at hfin
      rw [← hfin]
    · rw [if_neg hc] at hfin
      rw [← hfin] at hbl
      exact absurd hbl hc
  · intro hnbl
    by_cases hc : lowercase (joinedRow r (some p.2)).scenario = "baseline"
    · rw [if_pos hc] at hfin
      rw [← hfin] at hnbl
      exact absurd hc hnbl
    · rw [if_neg hc] at hfin
      subst hfin
      have hpmem2 := hpmem
      rw [baselinePairs, List.mem_map] at hpmem2
      obtain ⟨br, hbrf, hpeq⟩ := hpmem2
      rw [List.mem_filter] at hbrf
      obtain ⟨hbrmem, hbrbl⟩ := hbrf
      have hblbr : lowercase br.scenario = "baseline" := by simpa using hbrbl
      have hp1 : p.1 = br.year := by rw [← hpeq]
      have hp2 : p.2 = br.total_co2e := by rw [← hpeq]
      have hbs2 : ((baselinePairs records).filter (fun b => b.1 = br.year)).isEmpty = false := by
        have hin : p ∈ (baselinePairs records).filter (fun b => b.1 = br.year) :=
          List.mem_filter.mpr ⟨hpmem, by simpa using hp1⟩
        cases hx : (baselinePairs records).filter (fun b => b.1 = br.year) with
        | nil => rw [hx] at hin; cases hin
        | cons x xs => rfl
      have hjmem : joinedRow br (some p.2) ∈ joinBranch (baselinePairs records) br := by
        rw [joinBranch, hbs2]
        simp only [Bool.false_eq_true, if_false, List.mem_map]
        exact ⟨p, List.mem_filter.mpr ⟨hpmem, by simpa using hp1⟩, rfl⟩
      have hbmem : (if lowercase (joinedRow br (some p.2)).scenario = "baseline" then
          { joinedRow br (some p.2) with change_vs_baseline_pct := some 0 }
          else joinedRow br (some p.2)) ∈ baseline_join records := by
        rw [baseline_join]
        refine List.mem_map_of_mem _ ?_
        rw [List.mem_flatMap]
        exact ⟨br, hbrmem, hjmem⟩
      rw [if_pos (show lowercase (joinedRow br (some p.2)).scenario = "baseline" from hblbr)]
        at hbmem
      refine ⟨_, hbmem, hblbr, ?_, ?_⟩
      · show br.year = r.year
        rw [← hp1]
        exact hpyr2
      · show some ((r.total_co2e - p.2) / p.2 * 100) =
          some ((r.total_co2e - br.total_co2e) / br.total_co2e * 100)
        rw [hp2]

theorem records_coverage {base : List ActivityRow} {fac : List FactorRow}
    {pb pg gpc gg : ℚ} {sy ey : Int} {scns : List Scenario}
    {um : Option (List (String × ℚ))} {records : List ForecastRecord}
    (h : forecast_records base fac pb pg gpc gg sy ey scns um = .ok records)
    (hb : ∃ scn ∈ scns, lowercase scn.name = "baseline") :
    ∀ r ∈ records, ∃ br ∈ records,
      lowercase br.scenario = "baseline" ∧ br.year = r.year := by
  obtain ⟨lists, hlists, hrec2⟩ := forecast_records_ok_inv h
  subst hrec2
  have hfor := mapME_ok_forall2 hlists
  obtain ⟨bscn, hbscn, hbl⟩ := hb
  obtain ⟨lb, hlb, hcellsb⟩ := forall2_mem_left hfor bscn hbscn
  obtain ⟨hse, hmapb⟩ := cells_for_scenario_ok_inv hcellsb
  have hforb := mapME_ok_forall2 hmapb
  intro r hr
  rw [List.mem_flatten] at hr
  obtain ⟨l, hl, hrl⟩ := hr
  obtain ⟨scn, hscn, hcells⟩ := forall2_mem_right hfor l hl
  obtain ⟨hse2, hmap⟩ := cells_for_scenario_ok_inv hcells
  have hforl := mapME_ok_forall2 hmap
  obtain ⟨y, hy, hcell⟩ := forall2_mem_right hforl r hrl
  have hyear : r.year = y := (forecast_cell_ok_fields hcell).1
  obtain ⟨br, hbrl, hcellbr⟩ := forall2_mem_left hforb y hy
  have hbrf := forecast_cell_ok_fields hcellbr
  refine ⟨br, ?_, ?_, ?_⟩
  · rw [List.mem_flatten]
    exact ⟨lb, hlb, hbrl⟩
  · rw [hbrf.2.1]
    exact hbl
  · rw [hbrf.1, hyear]

/-- C4: in every forecast containing a scenario whose name case-insensitively
equals "baseline", every row of a baseline-named scenario has
`change_vs_baseline_pct` exactly `0.0` for every year, and every
non-baseline row has
`change_vs_baseline_pct = (total_co2e − baseline_total)/baseline_total × 100`
where `baseline_total` is a baseline row's `total_co2e` for the same year. -/
theorem C4_baseline_relative_change (base : List ActivityRow)
    (fac : List FactorRow) (pb pg gpc gg : ℚ) (sy ey : Int)
    (scns : List Scenario) (um : Option (List (String × ℚ)))
    (rows : List ForecastRow)
    (hb : ∃ scn ∈ scns, lowercase scn.name = "baseline")
    (h : forecast_scenarios base fac pb pg gpc gg sy ey scns um = .ok rows) :
    ∀ row ∈ rows,
      (lowercase row.scenario = "baseline" →
        row.change_vs_baseline_pct = some 0) ∧
      (lowercase row.scenario ≠ "baseline" →
        ∃ b ∈ rows, lowercase b.scenario = "baseline" ∧ b.year = row.year ∧
          row.change_vs_baseline_pct =
            some ((row.total_co2e - b.total_co2e) / b.total_co2e * 100)) := by
  obtain ⟨records, hrec, hne, hrows⟩ := forecast_scenarios_ok_inv h
  subst hrows
  exact baseline_join_spec records (records_coverage hrec hb)

attribute [local semireducible] Rat.mul Rat.add Rat.sub Rat.inv Rat.ofScientific in
/-- Witness for C4: a two-scenario, one-year forecast; the mitigation row's
change column carries the baseline-relative formula. -/
theorem C4_baseline_relative_change_witness :
    (⟨2025, "Mit", 50, 50, 50, 1, 1, some 100, some (-50)⟩ : ForecastRow).change_vs_baseline_pct =
      some ((50 - 100) / 100 * 100) := by
  have h := C4_baseline_relative_change [⟨"residential", 100⟩]
    [⟨"residential", 1, 0, 0⟩] 1 0 1 0 2025 2025
    [⟨"Baseline", 0, 0, 0, 0, 0⟩, ⟨"Mit", 1/2, 0, 0, 0, 0⟩] none
    [⟨2025, "Baseline", 100, 100, 100, 1, 1, some 100, some 0⟩,
     ⟨2025, "Mit", 50, 50, 50, 1, 1, some 100, some (-50)⟩]
    (by decide) (by decide)
  have h2 := (h ⟨2025, "Mit", 50, 50, 50, 1, 1, some 100, some (-50)⟩ (by decide)).2
    (by decide)
  obtain ⟨b, hbmem, hbl, hby, hch⟩ := h2
  rcases List.mem_cons.mp hbmem with rfl | hb2
  · exact hch
  · rcases List.mem_cons.mp hb2 with rfl | hb3
    · exact absurd hbl (by decide)
    · cases hb3
